import Mathlib

/-!
Shallow embedding of `ethiack-job-manager` (Python) in Lean 4.

The embedding follows the source files under `src/ethiack_job_manager/`:
`types.py` (pydantic models), `__init__.py` (configuration and `api_auth`),
`manager.py` (`handle_http_error`, `process_response`, the endpoint
operations, and the tenacity-based `wait_for_job` poll loop).

Effectful Python code is modelled by explicit data flow: HTTP transport is an
oracle (`HttpResponse` values per call), random backoff sleeps are an oracle
sequence of durations in integer milliseconds, exceptions are an `Exc` sum
type threaded through `Except`, and each operation also reports the network
requests it issued.
-/

namespace EthiackJobManager

/-- A JSON value, as produced by `response.json()` / consumed by
`json.dumps`. Numbers are restricted to integers (no claim touches
non-integral numbers). -/
inductive Json where
  | null : Json
  | bool (b : Bool) : Json
  | num (n : Int) : Json
  | str (s : String) : Json
  | arr (xs : List Json) : Json
  | obj (kvs : List (String × Json)) : Json

/-- Key lookup in a JSON object association list (first match wins, as in a
Python dict there is at most one entry per key; for lists produced by
`response.json()` keys are unique). -/
def lookupJson : List (String × Json) → String → Option Json
  | [], _ => none
  | (k, v) :: rest, key => if k = key then some v else lookupJson rest key

/-- Python `key in json_response` for the shapes that occur in API error
bodies: dict membership tests keys, list membership tests elements, string
membership tests substrings. -/
def jsonContains (j : Json) (key : String) : Bool :=
  match j with
  | .obj kvs => (lookupJson kvs key).isSome
  | .arr xs => xs.any (fun x => match x with | .str s => s = key | _ => false)
  | .str s => decide (List.IsInfix key.toList s.toList)
  | _ => false

mutual

/-- Python `repr` of a JSON value (`str` of a dict/list renders nested
strings with single quotes). Escaping inside strings is not modelled. -/
def pyRepr : Json → String
  | .null => "None"
  | .bool true => "True"
  | .bool false => "False"
  | .num n => toString n
  | .str s => "\x27" ++ s ++ "\x27"
  | .arr xs => "[" ++ String.intercalate ", " (pyReprList xs) ++ "]"
  | .obj kvs => "\x7b" ++ String.intercalate ", " (pyReprObj kvs) ++ "\x7d"

def pyReprList : List Json → List String
  | [] => []
  | x :: xs => pyRepr x :: pyReprList xs

def pyReprObj : List (String × Json) → List String
  | [] => []
  | (k, v) :: kvs => ("\x27" ++ k ++ "\x27: " ++ pyRepr v) :: pyReprObj kvs

end

/-- Python `str` of a JSON value, as used by f-string interpolation
(`f"... \x7bjson_response['error']\x7d"`): a string renders bare, everything
else as its `repr`. -/
def pyStr : Json → String
  | .str s => s
  | j => pyRepr j

/-- Python truthiness of an `Optional[bool]`: `None` and `False` are falsy. -/
def pyTruthy : Option Bool → Bool
  | none => false
  | some b => b

/-- An HTTP response as observed by the client: status code, whether the
`content-type` header contains `application/json`, the parsed body, the
request URL and the reason phrase (used by `requests` to build the
`HTTPError` message). -/
structure HttpResponse where
  status : Nat
  contentTypeJson : Bool
  body : Json
  url : String := ""
  reason : String := ""

/-- The message `str(err)` of the `requests.HTTPError` raised by
`Response.raise_for_status` for a 4xx/5xx response:
`"<status> Client Error: <reason> for url: <url>"` (5xx: `Server Error`). -/
def httpErrorString (r : HttpResponse) : String :=
  let kind := if r.status < 500 then "Client Error" else "Server Error"
  toString r.status ++ " " ++ kind ++ ": " ++ r.reason ++ " for url: " ++ r.url

/-- The exceptions the embedded code can raise. `retryError` is
`tenacity.RetryError`, wrapping the result of the last polling attempt. -/
inductive Exc where
  | httpError (msg : String) (status : Nat) : Exc
  | clickException (msg : String) (exitCode : Nat) : Exc
  | clickExit (exitCode : Nat) : Exc
  | validationError (fields : List String) : Exc
  | configError (msg : String) : Exc
  | typeError (msg : String) : Exc
  | retryError (lastSuccess : Option Bool) (lastMessage : Option String) : Exc
deriving DecidableEq, Repr

/-- `manager.handle_http_error` (manager.py lines 23-62): builds the error
message, appending `"\n - Additional info: ..."` derived from the JSON body
by shape (top-level `"error"`, else top-level `"validation_error"`, else a
verbatim dump), then either raises a click exception / exits (inside a click
context) or re-raises `requests.HTTPError`. Every branch raises, so the
model returns the raised exception. `inClickCtx` models
`click.get_current_context(silent=True)` finding a context with a command. -/
def handle_http_error (baseMsg : String) (resp : HttpResponse)
    (echo fail inClickCtx : Bool) : Exc :=
  let errMsg :=
    if resp.contentTypeJson then
      let j := resp.body
      let additionalInfo :=
        if jsonContains j "error" then
          "(Error) " ++ pyStr ((match j with
            | .obj kvs => lookupJson kvs "error"
            | _ => none).getD .null)
        else if jsonContains j "validation_error" then
          "(Validation Error) " ++ pyStr ((match j with
            | .obj kvs => lookupJson kvs "validation_error"
            | _ => none).getD .null)
        else
          "(Unknown error) " ++ pyStr j
      baseMsg ++ "\n - Additional info: " ++ additionalInfo
    else baseMsg
  if inClickCtx then
    let exitCode := if fail then 1 else 0
    if echo then .clickException errMsg exitCode else .clickExit exitCode
  else .httpError errMsg resp.status

/-- `manager.process_response` (manager.py lines 65-89): `raise_for_status`
raises for status codes in [400, 600); the raised error goes through
`handle_http_error`, which itself always raises. Otherwise the body is
validated against the pydantic model (raising `pydantic.ValidationError` on
failure) and the validated object is returned. -/
def process_response {α : Type} (resp : HttpResponse)
    (validate : Json → Except (List String) α)
    (echo fail inClickCtx : Bool) : Except Exc α :=
  if 400 ≤ resp.status ∧ resp.status < 600 then
    .error (handle_http_error (httpErrorString resp) resp echo fail inClickCtx)
  else
    match validate resp.body with
    | .error fields => .error (.validationError fields)
    | .ok v => .ok v

/-! ## Domain model (`types.py`, `utils.py`) -/

/-- `utils.Severity` enum values. -/
inductive Severity where
  | cosmic | critical | high | medium | low | info | nosev
deriving DecidableEq, Repr

/-- The string values of the `Severity` enum ("nosev" renders as "none"). -/
def parseSeverity (s : String) : Option Severity :=
  if s = "cosmic" then some .cosmic
  else if s = "critical" then some .critical
  else if s = "high" then some .high
  else if s = "medium" then some .medium
  else if s = "low" then some .low
  else if s = "info" then some .info
  else if s = "none" then some .nosev
  else Option.none

/-- A validated `pydantic.AnyUrl`, carrying its normalized textual form
(`str(value)`), which may end with a trailing slash. -/
structure AnyUrl where
  rendered : String
deriving DecidableEq, Repr

/-- Split a character list at the first `://`, returning the scheme part
and the remainder. -/
def splitScheme : List Char → Option (List Char × List Char)
  | [] => Option.none
  | c :: rest =>
    if c = Char.ofNat 58 then
      match rest with
      | d :: e :: tail =>
        if d = Char.ofNat 47 ∧ e = Char.ofNat 47 then some ([], tail)
        else Option.none
      | _ => Option.none
    else
      match splitScheme rest with
      | some (pre, post) => some (c :: pre, post)
      | Option.none => Option.none

/-- Modelled pydantic `AnyUrl` validation and normalization: the input must
have the form `<scheme>://<rest>` with both parts nonempty; when the part
after the authority has no path, pydantic renders the URL with a trailing
slash (`AnyUrl("https://example.com")` renders as `"https://example.com/"`). -/
def parseUrl (s : String) : Option AnyUrl :=
  match splitScheme s.data with
  | some (scheme, rest) =>
    if scheme.isEmpty ∨ rest.isEmpty then Option.none
    else if rest.contains (Char.ofNat 47) then some ⟨s⟩
    else some ⟨s ++ "/"⟩
  | Option.none => Option.none

/-- Python `str.rstrip("/")` specialised to the single character used by
`Service.serialize_url`: removes every trailing slash. -/
def rstripSlash (s : String) : String :=
  ⟨(s.data.reverse.dropWhile (fun c => c = Char.ofNat 47)).reverse⟩

/-- `types.Service`: target URL plus optional campaign metadata. -/
structure Service where
  url : AnyUrl
  beacon_id : Option Int := Option.none
  event_slug : Option String := Option.none
deriving DecidableEq, Repr

/-- `Service.serialize_url` (types.py lines 48-51): serialize the URL to a
string without a trailing slash (`str(value).rstrip("/")`). -/
def Service.serialize_url (value : AnyUrl) : String :=
  rstripSlash value.rendered

/-- `Service.model_validate(dict(url=url))` as used by `check`/`launch_job`:
only the `url` field is populated. -/
def serviceFromUrl (rawUrl : String) : Except (List String) Service :=
  match parseUrl rawUrl with
  | some u => .ok { url := u }
  | Option.none => .error ["url"]

/-! ## Configuration and authentication (`__init__.py`) -/

/-- Environment-derived configuration. A missing environment variable reads
as the empty string (`os.getenv(..., "")`), so absent and empty credentials
coincide. -/
structure Config where
  apiUrl : String := "https://api.ethiack.com"
  apiVer : String := "v1"
  apiKey : String := ""
  apiSecret : String := ""
deriving DecidableEq, Repr

structure HTTPBasicAuth where
  username : String
  password : String
deriving DecidableEq, Repr

/-- The `ValueError` message raised by `api_auth`. -/
def credentialsMsg : String :=
  "API key and secret must be set (environment variables ETHIACK_API_KEY" ++
    " and ETHIACK_API_SECRET)."

/-- `api_auth` (`__init__.py` lines 50-64): raises `ValueError` when either
credential is missing or empty, otherwise returns the basic-auth pair. -/
def api_auth (cfg : Config) : Except Exc HTTPBasicAuth :=
  if cfg.apiKey = "" ∨ cfg.apiSecret = "" then
    .error (.configError credentialsMsg)
  else .ok ⟨cfg.apiKey, cfg.apiSecret⟩

/-- `urllib.parse.urljoin(ETHIACK_API_URL, path)` for a base URL without a
path component. -/
def urljoinApi (cfg : Config) (path : String) : String :=
  cfg.apiUrl ++ "/" ++ path

/-! ## Response models and their pydantic validators (`manager.py`) -/

structure CheckResponse where
  url : String
  valid : Bool
deriving DecidableEq, Repr

structure LaunchJobResponse where
  url : String
  uuid : String
deriving DecidableEq, Repr

structure CancelJobResponse where
  success : Bool
  message : String
deriving DecidableEq, Repr

structure JobStatusResponse where
  status : String
deriving DecidableEq, Repr

structure JobSuccessResponse where
  success : Option Bool := Option.none
  message : Option String := Option.none
deriving DecidableEq, Repr

/-- `types.Job`. The `created`/`started`/`finished` timestamps are kept as
their raw strings; datetime parsing is abstracted to string presence. -/
structure Job where
  uuid : String
  url : AnyUrl
  status : String
  created : String
  started : Option String := Option.none
  finished : Option String := Option.none
deriving DecidableEq, Repr

structure Finding where
  title : String
  severity : Severity
deriving DecidableEq, Repr

structure JobFindings extends Job where
  findings : List Finding
deriving DecidableEq, Repr

structure JobInfoResponse where
  job : JobFindings
deriving DecidableEq, Repr

structure ListJobsResponse where
  jobs : List Job
deriving DecidableEq, Repr

def fieldErrors {α : Type} : Except (List String) α → List String
  | .ok _ => []
  | .error l => l

/-- A required `str` field: missing or non-string values are validation
errors naming the field (pydantic default config ignores unknown extra
keys, so only the looked-up fields matter). -/
def requiredStr (kvs : List (String × Json)) (k : String) :
    Except (List String) String :=
  match lookupJson kvs k with
  | some (.str s) => .ok s
  | _ => .error [k]

/-- A required `bool` field. -/
def requiredBool (kvs : List (String × Json)) (k : String) :
    Except (List String) Bool :=
  match lookupJson kvs k with
  | some (.bool b) => .ok b
  | _ => .error [k]

/-- An optional `bool | None = None` field: absent or `null` yields `None`. -/
def optionalBool (kvs : List (String × Json)) (k : String) :
    Except (List String) (Option Bool) :=
  match lookupJson kvs k with
  | some (.bool b) => .ok (some b)
  | some .null => .ok Option.none
  | Option.none => .ok Option.none
  | some _ => .error [k]

/-- An optional `str | None = None` field. -/
def optionalStr (kvs : List (String × Json)) (k : String) :
    Except (List String) (Option String) :=
  match lookupJson kvs k with
  | some (.str s) => .ok (some s)
  | some .null => .ok Option.none
  | Option.none => .ok Option.none
  | some _ => .error [k]

def validateCheckResponse (j : Json) : Except (List String) CheckResponse :=
  match j with
  | .obj kvs =>
    match requiredStr kvs "url", requiredBool kvs "valid" with
    | .ok u, .ok v => .ok ⟨u, v⟩
    | a, b => .error (fieldErrors a ++ fieldErrors b)
  | _ => .error ["model"]

def validateLaunchJobResponse (j : Json) :
    Except (List String) LaunchJobResponse :=
  match j with
  | .obj kvs =>
    match requiredStr kvs "url", requiredStr kvs "uuid" with
    | .ok u, .ok id => .ok ⟨u, id⟩
    | a, b => .error (fieldErrors a ++ fieldErrors b)
  | _ => .error ["model"]

def validateCancelJobResponse (j : Json) :
    Except (List String) CancelJobResponse :=
  match j with
  | .obj kvs =>
    match requiredBool kvs "success", requiredStr kvs "message" with
    | .ok s, .ok m => .ok ⟨s, m⟩
    | a, b => .error (fieldErrors a ++ fieldErrors b)
  | _ => .error ["model"]

def validateJobStatusResponse (j : Json) :
    Except (List String) JobStatusResponse :=
  match j with
  | .obj kvs =>
    match requiredStr kvs "status" with
    | .ok s => .ok ⟨s⟩
    | .error l => .error l
  | _ => .error ["model"]

def validateJobSuccessResponse (j : Json) :
    Except (List String) JobSuccessResponse :=
  match j with
  | .obj kvs =>
    match optionalBool kvs "success", optionalStr kvs "message" with
    | .ok s, .ok m => .ok ⟨s, m⟩
    | a, b => .error (fieldErrors a ++ fieldErrors b)
  | _ => .error ["model"]

/-- A required `AnyUrl` field. -/
def requiredUrl (kvs : List (String × Json)) (k : String) :
    Except (List String) AnyUrl :=
  match lookupJson kvs k with
  | some (.str s) =>
    match parseUrl s with
    | some u => .ok u
    | Option.none => .error [k]
  | _ => .error [k]

/-- A required `Severity` field. -/
def requiredSeverity (kvs : List (String × Json)) (k : String) :
    Except (List String) Severity :=
  match lookupJson kvs k with
  | some (.str s) =>
    match parseSeverity s with
    | some sev => .ok sev
    | Option.none => .error [k]
  | _ => .error [k]

def validateJob (j : Json) : Except (List String) Job :=
  match j with
  | .obj kvs =>
    match requiredStr kvs "uuid", requiredUrl kvs "url",
        requiredStr kvs "status", requiredStr kvs "created",
        optionalStr kvs "started", optionalStr kvs "finished" with
    | .ok id, .ok u, .ok st, .ok c, .ok b, .ok f => .ok ⟨id, u, st, c, b, f⟩
    | a, b, c, d, e, f =>
      .error (fieldErrors a ++ fieldErrors b ++ fieldErrors c ++
        fieldErrors d ++ fieldErrors e ++ fieldErrors f)
  | _ => .error ["model"]

def validateFinding (j : Json) : Except (List String) Finding :=
  match j with
  | .obj kvs =>
    match requiredStr kvs "title", requiredSeverity kvs "severity" with
    | .ok t, .ok s => .ok ⟨t, s⟩
    | a, b => .error (fieldErrors a ++ fieldErrors b)
  | _ => .error ["model"]

def validateList {α : Type} (validate : Json → Except (List String) α) :
    List Json → Except (List String) (List α)
  | [] => .ok []
  | x :: xs =>
    match validate x, validateList validate xs with
    | .ok v, .ok vs => .ok (v :: vs)
    | a, b => .error (fieldErrors a ++ (fieldErrors b))

def validateJobFindings (j : Json) : Except (List String) JobFindings :=
  match j with
  | .obj kvs =>
    match validateJob j with
    | .error l => .error l
    | .ok job =>
      match lookupJson kvs "findings" with
      | some (.arr xs) =>
        match validateList validateFinding xs with
        | .ok fs => .ok ⟨job, fs⟩
        | .error l => .error l
      | _ => .error ["findings"]
  | _ => .error ["model"]

def validateJobInfoResponse (j : Json) : Except (List String) JobInfoResponse :=
  match j with
  | .obj kvs =>
    match lookupJson kvs "job" with
    | some inner =>
      match validateJobFindings inner with
      | .ok jf => .ok ⟨jf⟩
      | .error l => .error l
    | Option.none => .error ["job"]
  | _ => .error ["model"]

def validateListJobsResponse (j : Json) :
    Except (List String) ListJobsResponse :=
  match j with
  | .obj kvs =>
    match lookupJson kvs "jobs" with
    | some (.arr xs) =>
      match validateList validateJob xs with
      | .ok js => .ok ⟨js⟩
      | .error l => .error l
    | _ => .error ["jobs"]
  | _ => .error ["model"]

/-! ## `json.dumps` on the request payload dicts

`check` and `launch_job` build their request body as
`data=json.dumps(\x7b"url": service.url\x7d)`. `service.url` is the
attribute itself — a pydantic v2 `AnyUrl` object, which is not a `str`
subclass and has no JSON encoding (the repo's own `Service.serialize_url`
works around this with `str(value)`), so `json.dumps` raises
`TypeError("Object of type Url is not JSON serializable")` while the
arguments of `requests.post` are being evaluated, and no request is
issued. -/

/-- The message of the `TypeError` raised by `json.dumps` on a pydantic v2
`Url` object. -/
def urlNotSerializableMsg : String :=
  "Object of type Url is not JSON serializable"

/-- A Python value placed in a payload dict by the manager code: either a
JSON-serializable value or a pydantic v2 `Url` object (such as
`service.url`). -/
inductive PyValue where
  | json (j : Json) : PyValue
  | urlObject (u : AnyUrl) : PyValue

/-- `json.dumps` on a dict: serializes entries in order and raises
`TypeError` at the first value with no JSON encoding (pydantic v2 `Url`
objects). -/
def jsonDumpsDict : List (String × PyValue) → Except Exc (List (String × Json))
  | [] => .ok []
  | (_, .urlObject _) :: _ => .error (.typeError urlNotSerializableMsg)
  | (k, .json j) :: rest => (jsonDumpsDict rest).map (fun kvs => (k, j) :: kvs)

/-! ## Endpoint operations (`manager.py`)

Each operation is modelled as a function of the configuration, its inputs,
and the transport (the `HttpResponse` the server would give to its request);
it returns the list of network requests actually issued together with the
Python-level result. Argument evaluation order of the `requests.post/get`
call is preserved: `api_auth()` is evaluated before the request is sent, so
a credential failure issues no request. -/

structure Request where
  method : String
  url : String
  body : Option Json := Option.none
  query : List (String × String) := []
  auth : HTTPBasicAuth

/-- `manager.check` (lines 102-128): validates the service URL, then
evaluates the arguments of `requests.post` left to right — `api_auth()`
first, then `data=json.dumps(\x7b"url": service.url\x7d)`. The latter
raises `TypeError` on the pydantic v2 `Url` object, so no request is
issued; the POST is only reached on the (never-taken) branch where the
payload serializes. -/
def check (cfg : Config) (rawUrl : String) (echo fail inClickCtx : Bool)
    (transport : Request → HttpResponse) :
    List Request × Except Exc CheckResponse :=
  match serviceFromUrl rawUrl with
  | .error l => ([], .error (.validationError l))
  | .ok service =>
    match api_auth cfg with
    | .error e => ([], .error e)
    | .ok auth =>
      match jsonDumpsDict [("url", .urlObject service.url)] with
      | .error e => ([], .error e)
      | .ok bodyKvs =>
        let req : Request :=
          { method := "POST",
            url := urljoinApi cfg (cfg.apiVer ++ "/jobs/check"),
            body := some (.obj bodyKvs), auth }
        ([req], process_response (transport req) validateCheckResponse
          echo fail inClickCtx)

/-- `manager.cancel_job` (lines 196-212). -/
def cancel_job (cfg : Config) (uuid : String) (echo inClickCtx : Bool)
    (transport : Request → HttpResponse) :
    List Request × Except Exc CancelJobResponse :=
  match api_auth cfg with
  | .error e => ([], .error e)
  | .ok auth =>
    let req : Request :=
      { method := "POST",
        url := urljoinApi cfg (cfg.apiVer ++ "/jobs/" ++ uuid ++ "/cancel"),
        auth }
    ([req], process_response (transport req) validateCancelJobResponse
      echo true inClickCtx)

/-- `manager.get_job_info` (lines 222-238). -/
def get_job_info (cfg : Config) (uuid : String) (echo inClickCtx : Bool)
    (transport : Request → HttpResponse) :
    List Request × Except Exc JobInfoResponse :=
  match api_auth cfg with
  | .error e => ([], .error e)
  | .ok auth =>
    let req : Request :=
      { method := "GET", url := urljoinApi cfg (cfg.apiVer ++ "/jobs/" ++ uuid),
        auth }
    ([req], process_response (transport req) validateJobInfoResponse
      echo true inClickCtx)

/-- `manager.get_jobs_list` (lines 248-263). -/
def get_jobs_list (cfg : Config) (echo inClickCtx : Bool)
    (transport : Request → HttpResponse) :
    List Request × Except Exc ListJobsResponse :=
  match api_auth cfg with
  | .error e => ([], .error e)
  | .ok auth =>
    let req : Request :=
      { method := "GET", url := urljoinApi cfg (cfg.apiVer ++ "/jobs"), auth }
    ([req], process_response (transport req) validateListJobsResponse
      echo true inClickCtx)

/-- `manager.get_job_status` (lines 270-287). -/
def get_job_status (cfg : Config) (uuid : String) (echo inClickCtx : Bool)
    (transport : Request → HttpResponse) :
    List Request × Except Exc JobStatusResponse :=
  match api_auth cfg with
  | .error e => ([], .error e)
  | .ok auth =>
    let req : Request :=
      { method := "GET",
        url := urljoinApi cfg (cfg.apiVer ++ "/jobs/" ++ uuid ++ "/status"),
        auth }
    ([req], process_response (transport req) validateJobStatusResponse
      echo true inClickCtx)

/-- `manager.get_job_success` (lines 310-338): validates the severity query
(`JobSuccessQuery.model_validate`, raising `pydantic.ValidationError` on an
unknown severity), resolves credentials, then GETs
`{ver}/jobs/{uuid}/success` with the query parameters and processes the
response with the given `echo`/`fail` flags. The response to the single
request is supplied directly as `resp`. -/
def get_job_success (cfg : Config) (uuid severity : String)
    (echo fail inClickCtx : Bool) (resp : HttpResponse) :
    List Request × Except Exc JobSuccessResponse :=
  match parseSeverity severity with
  | Option.none => ([], .error (.validationError ["severity"]))
  | some _ =>
    match api_auth cfg with
    | .error e => ([], .error e)
    | .ok auth =>
      let req : Request :=
        { method := "GET",
          url := urljoinApi cfg (cfg.apiVer ++ "/jobs/" ++ uuid ++ "/success"),
          query := [("severity", severity),
                    ("fail", if fail then "True" else "False")],
          auth }
      ([req], process_response resp validateJobSuccessResponse
        echo fail inClickCtx)

/-! ## The poll-until-done loop (`manager.wait_for_job`, lines 341-376)

`wait_for_job` decorates `_retry` with
`tenacity.retry(retry=retry_if_result(lambda r: not r.success or r.success
is None), wait=wait_random_exponential(multiplier=1, min=1, max=15),
stop=stop_after_delay(int(timeout)))`.

Tenacity semantics embedded here:
  * after attempt `n` the retry predicate is consulted; an attempt that
    raised is never retried (`retry_if_result` returns `False` for failed
    outcomes), so its exception propagates out of `_retry` at once;
  * if the predicate asks for a retry, the stop condition
    `seconds_since_start >= timeout` is checked; when it stops, tenacity
    raises `RetryError` wrapping the last attempt;
  * otherwise it sleeps `random.uniform(0, high(n))` seconds where
    `high(n) = max(1, min(15, 2 ^ n))` (`wait_random_exponential` with
    `multiplier=1, min=1, max=15`; the exponent is the attempt number,
    starting at 1) and issues attempt `n + 1`.

Time is measured in integer milliseconds (so 1.9 s is the value 1900, and
`timeout` is the second count of the Python argument times 1000). Network
calls are modelled as instantaneous; elapsed time is the sum of the backoff
sleeps, supplied as the oracle sequence `sleeps` (attempt `n + 1` is issued
at `sleeps 1 + ... + sleeps n`). `httpAt n` is the transport response to the
`n`-th call of the success endpoint. `fuel` bounds the recursion; a run that
exhausts it returns `Option.none` and settles nothing. -/

/-- The ceiling, in milliseconds, of the jittered sleep after attempt `n`:
`wait_random_exponential(multiplier=1, min=1, max=15)` draws uniformly from
`[0, max(1, min(15, 2 ^ n))]` seconds. -/
def waitHigh (n : Nat) : Int := max 1000 (min 15000 (1000 * (2 : Int) ^ n))

/-- The sleep oracle is a possible sequence of jittered backoff draws. -/
def validSleeps (sleeps : Nat → Int) : Prop :=
  ∀ n, 0 ≤ sleeps n ∧ sleeps n ≤ waitHigh n

/-- The retry predicate of `_retry` (manager.py line 366):
`lambda r: not r.success or r.success is None`. -/
def retryPredicate (r : JobSuccessResponse) : Bool :=
  !(pyTruthy r.success) || r.success.isNone

/-- How the decorated `_retry()` call ends: a result accepted by the retry
predicate, a `tenacity.RetryError` after `stop_after_delay`, or an exception
propagated from an attempt. -/
inductive LoopOutcome where
  | ok (r : JobSuccessResponse)
  | timeoutStop (last : JobSuccessResponse)
  | exc (e : Exc)
deriving DecidableEq, Repr

structure LoopResult where
  outcome : LoopOutcome
  attempts : Nat
  calls : Nat
  finishTime : Int
deriving DecidableEq, Repr

/-- One execution of the tenacity-decorated `_retry` from attempt `n` at
elapsed time `t` with `calls` network requests already issued. -/
def pollLoopAux (cfg : Config) (uuid severity : String) (inClickCtx : Bool)
    (httpAt : Nat → HttpResponse) (sleeps : Nat → Int) (timeout : Int) :
    Nat → Nat → Int → Nat → Option LoopResult
  | 0, _, _, _ => Option.none
  | fuel + 1, n, t, calls =>
    let attempt := get_job_success cfg uuid severity false false inClickCtx
      (httpAt n)
    let calls := calls + attempt.1.length
    match attempt.2 with
    | .error e => some ⟨.exc e, n, calls, t⟩
    | .ok r =>
      if retryPredicate r = false then some ⟨.ok r, n, calls, t⟩
      else if timeout ≤ t then some ⟨.timeoutStop r, n, calls, t⟩
      else pollLoopAux cfg uuid severity inClickCtx httpAt sleeps timeout
        fuel (n + 1) (t + sleeps n) calls

def pollLoop (cfg : Config) (uuid severity : String) (inClickCtx : Bool)
    (httpAt : Nat → HttpResponse) (sleeps : Nat → Int) (timeout : Int)
    (fuel : Nat) : Option LoopResult :=
  pollLoopAux cfg uuid severity inClickCtx httpAt sleeps timeout fuel 1 0 0

structure WaitResult where
  outcome : Except Exc JobSuccessResponse
  pollCalls : Nat
  finalCalled : Bool
  finishTime : Int
deriving Repr

/-- `manager.wait_for_job` (lines 341-376): run the decorated `_retry()`;
if it returns normally, issue one final, non-suppressed `get_job_success`
with the caller's `echo`/`fail` and return its result; if it raises
(`RetryError` on `stop_after_delay`, or a propagated attempt exception),
that exception escapes `wait_for_job` and no final call is made. -/
def wait_for_job (cfg : Config) (uuid severity : String) (timeout : Int)
    (echo fail inClickCtx : Bool) (httpAt : Nat → HttpResponse)
    (sleeps : Nat → Int) (fuel : Nat) : Option WaitResult :=
  match pollLoop cfg uuid severity inClickCtx httpAt sleeps timeout fuel with
  | Option.none => Option.none
  | some lr =>
    match lr.outcome with
    | .ok _ =>
      let final := get_job_success cfg uuid severity echo fail inClickCtx
        (httpAt (lr.attempts + 1))
      some ⟨final.2, lr.calls, !final.1.isEmpty, lr.finishTime⟩
    | .timeoutStop r =>
      some ⟨.error (.retryError r.success r.message), lr.calls, false,
        lr.finishTime⟩
    | .exc e => some ⟨.error e, lr.calls, false, lr.finishTime⟩

structure LaunchResult where
  result : Except Exc LaunchJobResponse
  requests : List Request
  waitResult : Option WaitResult
  finishTime : Int

/-- `manager.launch_job` (lines 141-183): validates the service URL, then
evaluates the arguments of `requests.post` left to right — `api_auth()`
first, then `data=json.dumps(\x7b"url": service.url\x7d)`, which raises
`TypeError` on the pydantic v2 `Url` object before any request is issued
(so neither the launch POST nor `wait_for_job` is ever reached). On the
never-taken branch where the payload serializes, the POST is processed
(with `fail=True`) and, when `wait` is set, `wait_for_job` runs, its result
discarded but its exceptions propagated; the launch response is returned. -/
def launch_job (cfg : Config) (rawUrl : String) (echo wait : Bool)
    (timeout : Int) (severity : String) (fail inClickCtx : Bool)
    (launchResp : HttpResponse) (httpAt : Nat → HttpResponse)
    (sleeps : Nat → Int) (fuel : Nat) : Option LaunchResult :=
  match serviceFromUrl rawUrl with
  | .error l => some ⟨.error (.validationError l), [], Option.none, 0⟩
  | .ok service =>
    match api_auth cfg with
    | .error e => some ⟨.error e, [], Option.none, 0⟩
    | .ok auth =>
      match jsonDumpsDict [("url", .urlObject service.url)] with
      | .error e => some ⟨.error e, [], Option.none, 0⟩
      | .ok bodyKvs =>
        let req : Request :=
          { method := "POST",
            url := urljoinApi cfg (cfg.apiVer ++ "/jobs/launch"),
            body := some (.obj bodyKvs), auth }
        match process_response launchResp validateLaunchJobResponse
            echo true inClickCtx with
        | .error e => some ⟨.error e, [req], Option.none, 0⟩
        | .ok info =>
          if wait then
            match wait_for_job cfg info.uuid severity timeout echo fail
                inClickCtx httpAt sleeps fuel with
            | Option.none => Option.none
            | some w =>
              some ⟨(match w.outcome with
                | .error e => .error e
                | .ok _ => .ok info), [req], some w, w.finishTime⟩
          else some ⟨.ok info, [req], Option.none, 0⟩

/-! ## Auxiliary definitions for the verification -/

/-- The keys of a JSON object (for statements about request-body shape). -/
def jsonKeys : Json → List String
  | .obj kvs => kvs.map Prod.fst
  | _ => []

/-- Whether a string ends with the `/` character. -/
def endsInSlash (s : String) : Prop :=
  s.data.getLast? = some (Char.ofNat 47)

instance (s : String) : Decidable (endsInSlash s) := by
  unfold endsInSlash; infer_instance

/-! ## Concrete fixtures used by witnesses and counterexamples -/

/-- A configuration with both credentials present. -/
def cfgOk : Config := { apiKey := "k", apiSecret := "s" }

/-- A configuration whose API key is absent (empty). -/
def cfgNoKey : Config := { apiSecret := "s" }

/-- A 200 response whose body reports a still-pending job
(`\x7b"success": null\x7d`). -/
def pending200 : HttpResponse :=
  { status := 200, contentTypeJson := true, body := .obj [("success", .null)] }

/-- A 200 response reporting a terminal unsuccessful job. -/
def false200 : HttpResponse :=
  { status := 200, contentTypeJson := true,
    body := .obj [("success", .bool false)] }

/-- A 200 response reporting a terminal successful job. -/
def true200 : HttpResponse :=
  { status := 200, contentTypeJson := true,
    body := .obj [("success", .bool true)] }

/-- A 500 response with a non-JSON body. -/
def err500 : HttpResponse :=
  { status := 500, contentTypeJson := false, body := .null,
    url := "https://api.ethiack.com/v1/jobs/x/success",
    reason := "Internal Server Error" }

/-- The `requests.HTTPError` message for `err500`. -/
def err500Msg : String :=
  "500 Server Error: Internal Server Error for url: " ++
    "https://api.ethiack.com/v1/jobs/x/success"

/-- A successful launch response for job `j1`. -/
def launch200 : HttpResponse :=
  { status := 200, contentTypeJson := true,
    body := .obj [("url", .str "https://example.com"), ("uuid", .str "j1")] }

/-- A transport oracle whose success flips to `true` at the third call. -/
def flipHttp (n : Nat) : HttpResponse :=
  if n ≤ 2 then pending200 else true200

/-- Constant 1-second (1000 ms) backoff draws (always legitimate, since the
jitter ceiling is at least 1 s). -/
def sleepsOne (_ : Nat) : Int := 1000

/-- Backoff draws 1.9 s then 3.5 s (legitimate: the ceilings after attempts
1 and 2 are 2 s and 4 s). -/
def sleepsBig (n : Nat) : Int :=
  if n = 1 then 1900 else if n = 2 then 3500 else 0

/-- The HTTP 422 response of §8 of the spec: body
`\x7b"validation_error": \x7b"url": ["invalid"]\x7d\x7d`. -/
def resp422 : HttpResponse :=
  { status := 422, contentTypeJson := true,
    body := .obj [("validation_error", .obj [("url", .arr [.str "invalid"])])],
    url := "https://api.ethiack.com/v1/jobs/check",
    reason := "Unprocessable Entity" }

/-! # Theorems -/

theorem head?_dropWhile_false {α : Type} (p : α → Bool) :
    ∀ (l : List α) (a : α), (l.dropWhile p).head? = some a → p a = false := by
  intro l
  induction l with
  | nil => intro a h; simp [List.dropWhile] at h
  | cons x xs ih =>
    intro a h
    rw [List.dropWhile_cons] at h
    by_cases hx : p x = true
    · simp [hx] at h; exact ih a h
    · simp [hx] at h
      simp [← h, Bool.eq_false_iff.mpr hx]

theorem rstripSlash_no_trailing (s : String) :
    ¬ endsInSlash (rstripSlash s) := by
  unfold endsInSlash rstripSlash
  intro h
  have h2 : ((s.data.reverse.dropWhile
      (fun c => c = Char.ofNat 47)).reverse).getLast? = some (Char.ofNat 47) :=
    h
  rw [List.getLast?_reverse] at h2
  have := head?_dropWhile_false (fun c => c = Char.ofNat 47) s.data.reverse _ h2
  simp at this

/-- C9: for every valid Service input URL, with or without a trailing
slash, the serialized url has the trailing slash stripped: serializing the
url field of a validated Service never yields a string ending in a slash. -/
theorem c9_serialize_url_no_trailing_slash (raw : String) (svc : Service)
    (_ : serviceFromUrl raw = .ok svc) :
    ¬ endsInSlash (Service.serialize_url svc.url) :=
  rstripSlash_no_trailing svc.url.rendered

theorem c9_witness :
    serviceFromUrl "https://example.com/" =
      .ok { url := ⟨"https://example.com/"⟩ } ∧
    ¬ endsInSlash (Service.serialize_url ⟨"https://example.com/"⟩) :=
  ⟨by rfl, c9_serialize_url_no_trailing_slash "https://example.com/"
    { url := ⟨"https://example.com/"⟩ } (by rfl)⟩

set_option maxRecDepth 4000 in
/-- C5: for a failed HTTP response whose body is JSON, the classifier
derives the structured detail by shape — a top-level `error` entry yields an
`(Error)` detail, otherwise a top-level `validation_error` entry yields a
`(Validation Error)` detail, otherwise the verbatim body is dumped — and the
422 response with body `\x7b"validation_error": \x7b"url": ["invalid"]\x7d\x7d`
produces an error whose detail contains the literal string `invalid` and
whose status is 422. -/
theorem c5_error_classifier_shapes :
    (∀ (base : String) (resp : HttpResponse) (echo fail : Bool)
        (kvs : List (String × Json)) (v : Json),
      resp.contentTypeJson = true → resp.body = .obj kvs →
      lookupJson kvs "error" = some v →
      handle_http_error base resp echo fail false =
        .httpError (base ++ "\n - Additional info: " ++ ("(Error) " ++ pyStr v))
          resp.status) ∧
    (∀ (base : String) (resp : HttpResponse) (echo fail : Bool)
        (kvs : List (String × Json)) (v : Json),
      resp.contentTypeJson = true → resp.body = .obj kvs →
      lookupJson kvs "error" = Option.none →
      lookupJson kvs "validation_error" = some v →
      handle_http_error base resp echo fail false =
        .httpError
          (base ++ "\n - Additional info: " ++
            ("(Validation Error) " ++ pyStr v))
          resp.status) ∧
    (∀ (base : String) (resp : HttpResponse) (echo fail : Bool)
        (kvs : List (String × Json)),
      resp.contentTypeJson = true → resp.body = .obj kvs →
      lookupJson kvs "error" = Option.none →
      lookupJson kvs "validation_error" = Option.none →
      handle_http_error base resp echo fail false =
        .httpError
          (base ++ "\n - Additional info: " ++
            ("(Unknown error) " ++ pyStr (.obj kvs)))
          resp.status) ∧
    (∃ m, process_response resp422 validateCheckResponse false true false =
        .error (.httpError m 422) ∧ List.IsInfix "invalid".data m.data) := by
  refine ⟨?_, ?_, ?_, ?_⟩
  · intro base resp echo fail kvs v hct hbody hlook
    simp [handle_http_error, jsonContains, hct, hbody, hlook]
  · intro base resp echo fail kvs v hct hbody hnoerr hlook
    simp [handle_http_error, jsonContains, hct, hbody, hnoerr, hlook]
  · intro base resp echo fail kvs hct hbody hnoerr hnoval
    simp [handle_http_error, jsonContains, hct, hbody, hnoerr, hnoval]
  · exact ⟨_, rfl, by decide⟩

theorem c5_witness :
    handle_http_error "b"
      { status := 400, contentTypeJson := true,
        body := .obj [("error", .str "x")] } false true false =
      .httpError
        ("b" ++ "\n - Additional info: " ++ ("(Error) " ++ pyStr (.str "x")))
        400 :=
  c5_error_classifier_shapes.1 "b" _ false true [("error", .str "x")]
    (.str "x") rfl rfl (by rfl)

/-- C6: the response validator rejects bodies missing a required field and
tolerates unknown extra fields: a 2xx launch response lacking `uuid` raises
a schema validation error naming the field (not a generic error), while a
body with all required fields plus unknown extras validates successfully. -/
theorem c6_validator :
    (∀ (resp : HttpResponse) (kvs : List (String × Json)) (echo fail ctx : Bool),
      resp.status = 200 → resp.body = .obj kvs →
      lookupJson kvs "uuid" = Option.none →
      ∃ l, process_response resp validateLaunchJobResponse echo fail ctx =
          .error (.validationError l) ∧ "uuid" ∈ l) ∧
    (∀ (resp : HttpResponse) (u b : String) (extra : List (String × Json))
        (echo fail ctx : Bool),
      resp.status = 200 →
      resp.body = .obj (("url", .str u) :: ("uuid", .str b) :: extra) →
      process_response resp validateLaunchJobResponse echo fail ctx =
        .ok ⟨u, b⟩) := by
  constructor
  · intro resp kvs echo fail ctx hst hbody hno
    have huuid : requiredStr kvs "uuid" = .error ["uuid"] := by
      simp [requiredStr, hno]
    simp only [process_response, hst, hbody]
    rw [if_neg (by decide)]
    cases hurl : requiredStr kvs "url" with
    | ok u =>
      exact ⟨["uuid"],
        by simp [validateLaunchJobResponse, hurl, huuid, fieldErrors], by simp⟩
    | error l =>
      exact ⟨l ++ ["uuid"],
        by simp [validateLaunchJobResponse, hurl, huuid, fieldErrors], by simp⟩
  · intro resp u b extra echo fail ctx hst hbody
    simp only [process_response, hst, hbody]
    rw [if_neg (by decide)]
    simp [validateLaunchJobResponse, requiredStr, lookupJson]

theorem c6_witness :
    (∃ l, process_response
        { status := 200, contentTypeJson := true,
          body := .obj [("url", .str "https://example.com")] }
        validateLaunchJobResponse false true false =
        .error (.validationError l) ∧ "uuid" ∈ l) ∧
    process_response
        { status := 200, contentTypeJson := true,
          body := .obj [("url", .str "a"), ("uuid", .str "b"),
            ("extra", .num 1)] }
        validateLaunchJobResponse false true false = .ok ⟨"a", "b"⟩ :=
  ⟨c6_validator.1 _ [("url", .str "https://example.com")] false true false
      rfl rfl (by rfl),
    c6_validator.2 _ "a" "b" [("extra", .num 1)] false true false rfl rfl⟩

/-! ## Helper lemmas about `get_job_success` and the poll loop -/

theorem get_job_success_ok_inv {cfg : Config} {uuid sev : String}
    {e f c : Bool} {resp : HttpResponse} {r : JobSuccessResponse}
    (h : (get_job_success cfg uuid sev e f c resp).2 = .ok r) :
    (∃ s0, parseSeverity sev = some s0) ∧ ∃ a, api_auth cfg = .ok a := by
  unfold get_job_success at h
  cases hsev : parseSeverity sev with
  | none => rw [hsev] at h; simp at h
  | some s0 =>
    rw [hsev] at h
    cases hauth : api_auth cfg with
    | error e2 => rw [hauth] at h; simp at h
    | ok a => exact ⟨⟨s0, rfl⟩, ⟨a, rfl⟩⟩

theorem get_job_success_calls_one (cfg : Config) (uuid sev : String)
    (s0 : Severity) (a : HTTPBasicAuth)
    (hsev : parseSeverity sev = some s0) (hauth : api_auth cfg = .ok a)
    (e f c : Bool) (resp : HttpResponse) :
    (get_job_success cfg uuid sev e f c resp).1.length = 1 := by
  unfold get_job_success
  rw [hsev, hauth]
  rfl

theorem pollLoopAux_ok_valid (cfg : Config) (uuid severity : String)
    (c : Bool) (httpAt : Nat → HttpResponse) (sleeps : Nat → Int)
    (timeout : Int) :
    ∀ fuel n t calls lr r,
      pollLoopAux cfg uuid severity c httpAt sleeps timeout fuel n t calls =
        some lr →
      lr.outcome = .ok r →
      (∃ s0, parseSeverity severity = some s0) ∧ ∃ a, api_auth cfg = .ok a := by
  intro fuel
  induction fuel with
  | zero => intro n t calls lr r h _; simp [pollLoopAux] at h
  | succ fuel ih =>
    intro n t calls lr r h hok
    simp only [pollLoopAux] at h
    cases hgs : (get_job_success cfg uuid severity false false c
        (httpAt n)).2 with
    | ok r0 => exact get_job_success_ok_inv hgs
    | error e =>
      rw [hgs] at h
      simp at h
      rw [← h] at hok
      simp at hok

/-- A polling attempt whose result asks for a retry, before the deadline:
the loop sleeps and issues the next attempt. -/
theorem pollLoopAux_step_retry (cfg : Config) (uuid severity : String)
    (ctx : Bool) (httpAt : Nat → HttpResponse) (sleeps : Nat → Int)
    (timeout : Int) (fuel n calls : Nat) (t : Int) (r : JobSuccessResponse)
    (hgs : (get_job_success cfg uuid severity false false ctx (httpAt n)).2 =
      .ok r)
    (hpred : retryPredicate r = true) (ht : t < timeout) :
    pollLoopAux cfg uuid severity ctx httpAt sleeps timeout (fuel + 1) n t
        calls =
      pollLoopAux cfg uuid severity ctx httpAt sleeps timeout fuel (n + 1)
        (t + sleeps n) (calls + 1) := by
  obtain ⟨⟨s0, hs0⟩, ⟨a, ha⟩⟩ := get_job_success_ok_inv hgs
  have hlen := get_job_success_calls_one cfg uuid severity s0 a hs0 ha false
    false ctx (httpAt n)
  simp only [pollLoopAux]
  rw [hgs, hlen]
  dsimp only
  simp [hpred, not_le.mpr ht]

/-- A polling attempt whose result the retry predicate accepts: the loop
returns it. -/
theorem pollLoopAux_done (cfg : Config) (uuid severity : String)
    (ctx : Bool) (httpAt : Nat → HttpResponse) (sleeps : Nat → Int)
    (timeout : Int) (fuel n calls : Nat) (t : Int) (r : JobSuccessResponse)
    (hgs : (get_job_success cfg uuid severity false false ctx (httpAt n)).2 =
      .ok r)
    (hpred : retryPredicate r = false) :
    pollLoopAux cfg uuid severity ctx httpAt sleeps timeout (fuel + 1) n t
        calls =
      some ⟨.ok r, n, calls + 1, t⟩ := by
  obtain ⟨⟨s0, hs0⟩, ⟨a, ha⟩⟩ := get_job_success_ok_inv hgs
  have hlen := get_job_success_calls_one cfg uuid severity s0 a hs0 ha false
    false ctx (httpAt n)
  simp only [pollLoopAux]
  rw [hgs, hlen]
  dsimp only
  simp [hpred]

theorem waitHigh_le (n : Nat) : waitHigh n ≤ 15000 := by
  unfold waitHigh
  exact max_le (by norm_num) (min_le_left _ _)

/-- Every attempt the loop makes is issued strictly before
`timeout + 15000` milliseconds of elapsed time (15 s is the jitter
ceiling of a single backoff sleep). -/
theorem pollLoopAux_finishTime_lt (cfg : Config) (uuid severity : String)
    (ctx : Bool) (httpAt : Nat → HttpResponse) (sleeps : Nat → Int)
    (timeout : Int) (hs : validSleeps sleeps) :
    ∀ (fuel n calls : Nat) (t : Int) (lr : LoopResult),
      t < timeout + 15000 →
      pollLoopAux cfg uuid severity ctx httpAt sleeps timeout fuel n t calls =
        some lr →
      lr.finishTime < timeout + 15000 := by
  intro fuel
  induction fuel with
  | zero => intro n calls t lr ht h; simp [pollLoopAux] at h
  | succ fuel ih =>
    intro n calls t lr ht h
    simp only [pollLoopAux] at h
    cases hgs : (get_job_success cfg uuid severity false false ctx
        (httpAt n)).2 with
    | error e =>
      rw [hgs] at h
      simp at h
      rw [← h]
      exact ht
    | ok r =>
      rw [hgs] at h
      dsimp only at h
      by_cases hpred : retryPredicate r = false
      · rw [if_pos hpred] at h
        simp at h
        rw [← h]
        exact ht
      · rw [if_neg hpred] at h
        by_cases hstop : timeout ≤ t
        · rw [if_pos hstop] at h
          simp at h
          rw [← h]
          exact ht
        · rw [if_neg hstop] at h
          refine ih (n + 1) (calls + _) (t + sleeps n) lr ?_ h
          have h1 := (hs n).1
          have h2 := (hs n).2
          have h3 := waitHigh_le n
          have h4 : t < timeout := lt_of_not_ge hstop
          omega

/-- Against a stub that never reports a terminal result, the loop (when it
returns) always ends in the `stop_after_delay` condition, with the last
still-pending result. -/
theorem pollLoopAux_pending (cfg : Config) (uuid severity : String)
    (ctx : Bool) (httpAt : Nat → HttpResponse) (sleeps : Nat → Int)
    (timeout : Int) (msg : Nat → Option String)
    (hstub : ∀ n, (get_job_success cfg uuid severity false false ctx
      (httpAt n)).2 = .ok ⟨Option.none, msg n⟩) :
    ∀ (fuel n calls : Nat) (t : Int) (lr : LoopResult),
      pollLoopAux cfg uuid severity ctx httpAt sleeps timeout fuel n t calls =
        some lr →
      lr.outcome = .timeoutStop ⟨Option.none, msg lr.attempts⟩ := by
  intro fuel
  induction fuel with
  | zero => intro n calls t lr h; simp [pollLoopAux] at h
  | succ fuel ih =>
    intro n calls t lr h
    simp only [pollLoopAux] at h
    rw [hstub n] at h
    dsimp only at h
    have hpred : retryPredicate ⟨Option.none, msg n⟩ = true := rfl
    rw [hpred] at h
    simp at h
    by_cases hstop : timeout ≤ t
    · rw [if_pos hstop] at h
      have h2 := Option.some.inj h
      rw [← h2]
    · rw [if_neg hstop] at h
      exact ih (n + 1) (calls + _) (t + sleeps n) lr h

/-- C1: the claim says the poll loop stops retrying at the first non-null
`success` (true or false). The code's retry predicate
(`not r.success or r.success is None`) is true for `success=false`, so a
job that terminates unsuccessfully keeps being polled: with every poll
returning `success=false` and a 2 s budget, the first call already returns a
terminal result, yet the loop makes two further polling calls and ends in a
`RetryError` instead of stopping. This matches the spec's own design note
that this predicate variant is an unintended slip. -/
theorem c1_code_bug_eval :
    (get_job_success cfgOk "x" "medium" false false false false200).2 =
      .ok { success := some false } ∧
    retryPredicate { success := some false } = true ∧
    wait_for_job cfgOk "x" "medium" 2000 false true false (fun _ => false200)
      sleepsOne 10 =
      some { outcome := .error (.retryError (some false) Option.none),
             pollCalls := 3, finalCalled := false, finishTime := 2000 } :=
  ⟨by rfl, rfl, by rfl⟩

/-- C2 counterexample: when the loop ends because the time budget is
exhausted (stub always pending, 1 s sleeps, 2 s budget), `wait_for_job`
propagates tenacity's `RetryError` and the final, non-suppressed call is
never issued — refuting "after the retry loop ends, whether terminal or
budget exhausted, exactly one final non-suppressed call is issued". -/
theorem c2_counterexample :
    wait_for_job cfgOk "x" "medium" 2000 true true false (fun _ => pending200)
      sleepsOne 10 =
      some { outcome := .error (.retryError Option.none Option.none),
             pollCalls := 3, finalCalled := false, finishTime := 2000 } := by
  rfl

/-- C2 (amended): only when the retry loop ends by observing an accepted
result does `wait_for_job` issue exactly one final, non-suppressed
`get_job_success` with the caller's `echo`/`fail` settings, and that call's
result is what `wait_for_job` returns; when the budget is exhausted a
`RetryError` propagates with no final call, and an exception from a polling
attempt propagates immediately with no final call. -/
theorem c2_amended_final_call (cfg : Config) (uuid severity : String)
    (timeout : Int) (echo fail inClickCtx : Bool) (httpAt : Nat → HttpResponse)
    (sleeps : Nat → Int) (fuel : Nat) (lr : LoopResult)
    (hloop : pollLoop cfg uuid severity inClickCtx httpAt sleeps timeout fuel =
      some lr) :
    (∀ r, lr.outcome = .ok r →
      wait_for_job cfg uuid severity timeout echo fail inClickCtx httpAt
          sleeps fuel =
        some ⟨(get_job_success cfg uuid severity echo fail inClickCtx
            (httpAt (lr.attempts + 1))).2, lr.calls,
          !(get_job_success cfg uuid severity echo fail inClickCtx
            (httpAt (lr.attempts + 1))).1.isEmpty, lr.finishTime⟩ ∧
      (get_job_success cfg uuid severity echo fail inClickCtx
        (httpAt (lr.attempts + 1))).1.length = 1) ∧
    (∀ r, lr.outcome = .timeoutStop r →
      wait_for_job cfg uuid severity timeout echo fail inClickCtx httpAt
          sleeps fuel =
        some ⟨.error (.retryError r.success r.message), lr.calls, false,
          lr.finishTime⟩) ∧
    (∀ e, lr.outcome = .exc e →
      wait_for_job cfg uuid severity timeout echo fail inClickCtx httpAt
          sleeps fuel =
        some ⟨.error e, lr.calls, false, lr.finishTime⟩) := by
  have hvalid := pollLoopAux_ok_valid cfg uuid severity inClickCtx httpAt
    sleeps timeout fuel 1 0 0 lr
  obtain ⟨o, na, nc, ft⟩ := lr
  refine ⟨?_, ?_, ?_⟩
  · intro r hok
    simp only at hok
    subst hok
    constructor
    · unfold wait_for_job
      rw [hloop]
    · obtain ⟨⟨s0, hs0⟩, ⟨a, ha⟩⟩ := hvalid r hloop rfl
      exact get_job_success_calls_one cfg uuid severity s0 a hs0 ha echo
        fail inClickCtx _
  · intro r htm
    simp only at htm
    subst htm
    unfold wait_for_job
    rw [hloop]
  · intro e hexc
    simp only at hexc
    subst hexc
    unfold wait_for_job
    rw [hloop]

theorem c2_witness :
    wait_for_job cfgOk "x" "medium" 5000 true true false flipHttp sleepsOne
        10 =
      some ⟨(get_job_success cfgOk "x" "medium" true true false
          (flipHttp 4)).2, 3,
        !(get_job_success cfgOk "x" "medium" true true false
          (flipHttp 4)).1.isEmpty, 2000⟩ ∧
    (get_job_success cfgOk "x" "medium" true true false
      (flipHttp 4)).1.length = 1 :=
  (c2_amended_final_call cfgOk "x" "medium" 5000 true true false flipHttp
      sleepsOne 10
      ⟨.ok { success := some true }, 3, 3, 2000⟩ (by rfl)).1
    { success := some true } rfl

/-- C3 counterexample: a transport error on the very first polling attempt
(HTTP 500, deadline nowhere near) is not suppressed and retried — it aborts
`wait_for_job` at once after a single polling call, refuting "for every
polling attempt before the deadline, a transport error causes another
retry". -/
theorem c3_counterexample :
    wait_for_job cfgOk "x" "medium" 3600000 false true false
      (fun _ => err500) sleepsOne 10 =
      some { outcome := .error (.httpError err500Msg 500),
             pollCalls := 1, finalCalled := false, finishTime := 0 } := by
  rfl

/-- C3 (amended): before the deadline, a still-pending (`success=null`)
polling result causes another retry; but a transport error (non-2xx/3xx
HTTP response) on a polling attempt is not suppressed: the attempt raises
the classified error, which propagates out of the loop immediately after a
single call, aborting `wait_for_job` — whatever the remaining budget. -/
theorem c3_amended_retry_policy :
    (∀ (cfg : Config) (uuid severity : String) (ctx : Bool)
        (httpAt : Nat → HttpResponse) (sleeps : Nat → Int) (timeout : Int)
        (fuel n calls : Nat) (t : Int) (r : JobSuccessResponse),
      (get_job_success cfg uuid severity false false ctx (httpAt n)).2 =
        .ok r →
      r.success = Option.none → t < timeout →
      pollLoopAux cfg uuid severity ctx httpAt sleeps timeout (fuel + 1) n t
          calls =
        pollLoopAux cfg uuid severity ctx httpAt sleeps timeout fuel (n + 1)
          (t + sleeps n) (calls + 1)) ∧
    (∀ (cfg : Config) (uuid severity : String) (ctx : Bool)
        (httpAt : Nat → HttpResponse) (sleeps : Nat → Int) (timeout : Int)
        (fuel n calls : Nat) (t : Int) (s0 : Severity) (a : HTTPBasicAuth),
      parseSeverity severity = some s0 → api_auth cfg = .ok a →
      400 ≤ (httpAt n).status → (httpAt n).status < 600 →
      pollLoopAux cfg uuid severity ctx httpAt sleeps timeout (fuel + 1) n t
          calls =
        some ⟨.exc (handle_http_error (httpErrorString (httpAt n)) (httpAt n)
          false false ctx), n, calls + 1, t⟩) := by
  constructor
  · intro cfg uuid severity ctx httpAt sleeps timeout fuel n calls t r hgs
      hsucc ht
    have hpred : retryPredicate r = true := by
      simp [retryPredicate, hsucc, pyTruthy]
    exact pollLoopAux_step_retry cfg uuid severity ctx httpAt sleeps timeout
      fuel n calls t r hgs hpred ht
  · intro cfg uuid severity ctx httpAt sleeps timeout fuel n calls t s0 a
      hs0 ha h400 h600
    simp only [pollLoopAux, get_job_success]
    rw [hs0, ha]
    simp only [process_response]
    rw [if_pos ⟨h400, h600⟩]
    rfl

theorem c3_witness :
    pollLoopAux cfgOk "x" "medium" false (fun _ => err500) sleepsOne 3600000
        10 1 0 0 =
      some ⟨.exc (handle_http_error (httpErrorString err500) err500
        false false false), 1, 1, 0⟩ :=
  c3_amended_retry_policy.2 cfgOk "x" "medium" false (fun _ => err500)
    sleepsOne 3600000 9 1 0 0 .medium ⟨"k", "s"⟩ rfl (by rfl) (by decide)
    (by decide)

/-- C4: against a stub that never reports a terminal state, `wait_for_job`
(when its run completes) surfaces a timeout condition — tenacity's
`RetryError` wrapping the last still-pending result — which is distinct
from a job failure; the undetermined outcome keeps `success = none` and is
never coerced to `success = false`; and the loop stops issuing polling
calls within the budget plus the 15 s per-attempt jitter ceiling (every
attempt is issued strictly before `timeout + 15000` ms). -/
theorem c4_timeout_distinct (cfg : Config) (uuid severity : String)
    (timeout : Int) (echo fail inClickCtx : Bool)
    (httpAt : Nat → HttpResponse) (sleeps : Nat → Int) (fuel : Nat)
    (msg : Nat → Option String) (w : WaitResult)
    (hstub : ∀ n, (get_job_success cfg uuid severity false false inClickCtx
      (httpAt n)).2 = .ok ⟨Option.none, msg n⟩)
    (hs : validSleeps sleeps) (htimeout : 0 ≤ timeout)
    (hrun : wait_for_job cfg uuid severity timeout echo fail inClickCtx
      httpAt sleeps fuel = some w) :
    (∃ k, w.outcome = .error (.retryError Option.none (msg k))) ∧
    w.finalCalled = false ∧ w.finishTime < timeout + 15000 := by
  unfold wait_for_job at hrun
  cases hpl : pollLoop cfg uuid severity inClickCtx httpAt sleeps timeout
      fuel with
  | none => rw [hpl] at hrun; simp at hrun
  | some lr =>
    rw [hpl] at hrun
    unfold pollLoop at hpl
    have hout := pollLoopAux_pending cfg uuid severity inClickCtx httpAt
      sleeps timeout msg hstub fuel 1 0 0 lr hpl
    have hft := pollLoopAux_finishTime_lt cfg uuid severity inClickCtx httpAt
      sleeps timeout hs fuel 1 0 0 lr (by omega) hpl
    obtain ⟨o, na, nc, ft⟩ := lr
    simp only at hout
    subst hout
    dsimp only at hrun
    have h2 := Option.some.inj hrun
    rw [← h2]
    exact ⟨⟨na, rfl⟩, rfl, hft⟩

theorem c4_witness :
    (∃ _k : Nat, (⟨.error (.retryError Option.none Option.none), 3, false,
        2000⟩ : WaitResult).outcome =
      .error (.retryError Option.none Option.none)) ∧
    (⟨.error (.retryError Option.none Option.none), 3, false, 2000⟩ :
      WaitResult).finalCalled = false ∧
    (⟨.error (.retryError Option.none Option.none), 3, false, 2000⟩ :
      WaitResult).finishTime < 2000 + 15000 :=
  c4_timeout_distinct cfgOk "x" "medium" 2000 true true false
    (fun _ => pending200) sleepsOne 10 (fun _ => Option.none) _
    (fun _ => rfl) (fun _ => ⟨by norm_num [sleepsOne], le_max_left 1000 _⟩)
    (by norm_num) (by rfl)

/-- C7: for every operation (check, launch_job, cancel_job, get_job_info,
get_jobs_list, get_job_status, get_job_success, wait_for_job), when either
credential is absent or empty, the operation raises the configuration error
(`ValueError` from `api_auth`) and issues no network request: the request
trace is empty (for `wait_for_job`, zero polling calls and no final call),
so the failure is synchronous and never surfaces as a network error. -/
theorem c7_credentials_eager (cfg : Config)
    (hbad : cfg.apiKey = "" ∨ cfg.apiSecret = "")
    (rawUrl uuid severity : String) (svc : Service) (s0 : Severity)
    (echo fail ctx wait : Bool) (transport : Request → HttpResponse)
    (resp launchResp : HttpResponse) (httpAt : Nat → HttpResponse)
    (sleeps : Nat → Int) (timeout : Int) (fuel : Nat)
    (hurl : serviceFromUrl rawUrl = .ok svc)
    (hsev : parseSeverity severity = some s0) :
    check cfg rawUrl echo fail ctx transport =
      ([], .error (.configError credentialsMsg)) ∧
    launch_job cfg rawUrl echo wait timeout severity fail ctx launchResp
        httpAt sleeps fuel =
      some ⟨.error (.configError credentialsMsg), [], Option.none, 0⟩ ∧
    cancel_job cfg uuid echo ctx transport =
      ([], .error (.configError credentialsMsg)) ∧
    get_job_info cfg uuid echo ctx transport =
      ([], .error (.configError credentialsMsg)) ∧
    get_jobs_list cfg echo ctx transport =
      ([], .error (.configError credentialsMsg)) ∧
    get_job_status cfg uuid echo ctx transport =
      ([], .error (.configError credentialsMsg)) ∧
    get_job_success cfg uuid severity echo fail ctx resp =
      ([], .error (.configError credentialsMsg)) ∧
    wait_for_job cfg uuid severity timeout echo fail ctx httpAt sleeps
        (fuel + 1) =
      some ⟨.error (.configError credentialsMsg), 0, false, 0⟩ := by
  have hauth : api_auth cfg = .error (.configError credentialsMsg) := by
    unfold api_auth
    rw [if_pos hbad]
  have hgs : ∀ (e f : Bool) (rsp : HttpResponse),
      get_job_success cfg uuid severity e f ctx rsp =
        ([], .error (.configError credentialsMsg)) := by
    intro e f rsp
    simp [get_job_success, hsev, hauth]
  refine ⟨?_, ?_, ?_, ?_, ?_, ?_, hgs echo fail resp, ?_⟩
  · simp [check, hurl, hauth]
  · simp [launch_job, hurl, hauth]
  · simp [cancel_job, hauth]
  · simp [get_job_info, hauth]
  · simp [get_jobs_list, hauth]
  · simp [get_job_status, hauth]
  · unfold wait_for_job pollLoop
    simp only [pollLoopAux]
    rw [hgs false false (httpAt 1)]
    rfl

theorem c7_witness :
    check cfgNoKey "https://example.com" true true false
        (fun _ => pending200) =
      ([], .error (.configError credentialsMsg)) ∧
    launch_job cfgNoKey "https://example.com" true true 5000 "medium" true
        false pending200 (fun _ => pending200) sleepsOne 9 =
      some ⟨.error (.configError credentialsMsg), [], Option.none, 0⟩ ∧
    cancel_job cfgNoKey "u1" true false (fun _ => pending200) =
      ([], .error (.configError credentialsMsg)) ∧
    get_job_info cfgNoKey "u1" true false (fun _ => pending200) =
      ([], .error (.configError credentialsMsg)) ∧
    get_jobs_list cfgNoKey true false (fun _ => pending200) =
      ([], .error (.configError credentialsMsg)) ∧
    get_job_status cfgNoKey "u1" true false (fun _ => pending200) =
      ([], .error (.configError credentialsMsg)) ∧
    get_job_success cfgNoKey "u1" "medium" true true false pending200 =
      ([], .error (.configError credentialsMsg)) ∧
    wait_for_job cfgNoKey "u1" "medium" 5000 true true false
        (fun _ => pending200) sleepsOne (9 + 1) =
      some ⟨.error (.configError credentialsMsg), 0, false, 0⟩ :=
  c7_credentials_eager cfgNoKey (Or.inl rfl) "https://example.com" "u1"
    "medium" { url := ⟨"https://example.com/"⟩ } .medium true true false true
    (fun _ => pending200) pending200 pending200 (fun _ => pending200)
    sleepsOne 5000 9 (by rfl) rfl

/-- C8: the claim's end-to-end scenario cannot occur in the code:
`launch_job(wait=true, timeout=5)` evaluates
`data=json.dumps(\x7b"url": service.url\x7d)` while building the launch
POST, and `service.url` is a pydantic v2 `Url` object that `json.dumps`
cannot serialize. Against the stub whose success flips to true after two
polls, the call raises `TypeError("Object of type Url is not JSON
serializable")` after resolving credentials and before issuing any request:
no job is launched, no polling call is ever made, and no result carrying
`success=true` is returned — while the claim (and the spec's end-to-end
test, clearly the intent of this code, whose own `serialize_url` converts
the `Url` to a string) promises a `success=true` result within the
timeout. -/
theorem c8_code_bug_eval :
    launch_job cfgOk "https://example.com" false true 5000 "medium" true
      false launch200 flipHttp sleepsBig 10 =
      some { result := .error (.typeError urlNotSerializableMsg),
             requests := [], waitResult := Option.none, finishTime := 0 } ∧
    jsonDumpsDict [("url", .urlObject ⟨"https://example.com/"⟩)] =
      .error (.typeError urlNotSerializableMsg) :=
  ⟨by rfl, rfl⟩

/-- C10: no JSON body is ever POSTed by `check` or `launch_job`: both raise
`TypeError` at `data=json.dumps(\x7b"url": service.url\x7d)` (pydantic v2
`Url` objects are not JSON serializable) after resolving credentials and
before any request is issued, so each operation's request trace is empty.
The payload dict the code builds has exactly the single key `url` — the
intent the claim describes — but its serialization crashes, so nothing (in
particular neither `beacon_id` nor `event_slug`) is ever transmitted. -/
theorem c10_code_bug_eval :
    check cfgOk "https://example.com" true true false (fun _ => pending200) =
      ([], .error (.typeError urlNotSerializableMsg)) ∧
    launch_job cfgOk "https://example.com" true false 5000 "medium" true
      false launch200 (fun _ => pending200) sleepsOne 10 =
      some { result := .error (.typeError urlNotSerializableMsg),
             requests := [], waitResult := Option.none, finishTime := 0 } ∧
    ([("url", PyValue.urlObject ⟨"https://example.com/"⟩)].map Prod.fst =
      ["url"] ∧
    jsonDumpsDict [("url", PyValue.urlObject ⟨"https://example.com/"⟩)] =
      .error (.typeError urlNotSerializableMsg)) :=
  ⟨by rfl, by rfl, rfl, rfl⟩

end EthiackJobManager
